import Mathlib

/-!
Verification of the Coverage Gap Detection core.

The repository fragment under version control is the Streamlit presentation
layer (`streamlit_app_standalone.py`), which calls into the analysis core
(`app.agents.orchestrator.Orchestrator`, `app.core.models`, ...).  The core
itself is not part of the visible fragment, so its data model and pipeline are
modelled here from the specification; the serialization dictionary and the
gap-card rendering are embedded from the visible source.

Currency amounts are modelled as exact integers (`ℤ`); the cost-model rates
are whole percentages so that every premium computation is exact.
-/

/-- Modelled from the spec: the severity enum (High > Medium > Low) of
`app.core.models.RiskSeverity`, which is missing from the visible fragment.
The UI compares `gap.severity.value` against the literal `'High'`, so the enum
values are the strings "High"/"Medium"/"Low". -/
inductive RiskSeverity
  | Low
  | Medium
  | High
deriving DecidableEq

/-- Numeric rank of a severity: High > Medium > Low. -/
def RiskSeverity.rank : RiskSeverity → Nat
  | .Low => 0
  | .Medium => 1
  | .High => 2

/-- Modelled from the spec: the string label of a severity, exposed at the
output boundary via `.value`. -/
def RiskSeverity.value : RiskSeverity → String
  | .Low => "Low"
  | .Medium => "Medium"
  | .High => "High"

/-- Modelled from the spec: the coverage-type enum of the data model
(spec section 3 lists dwelling, liability, personal-property, flood,
earthquake, umbrella, scheduled-items). -/
inductive CoverageType
  | dwelling
  | liability
  | personal_property
  | flood
  | earthquake
  | umbrella
  | scheduled_items
deriving DecidableEq

/-- Modelled from the spec: the category string label of a coverage/gap type,
exposed at the output boundary via `.value`. -/
def CoverageType.value : CoverageType → String
  | .dwelling => "dwelling"
  | .liability => "liability"
  | .personal_property => "personal_property"
  | .flood => "flood"
  | .earthquake => "earthquake"
  | .umbrella => "umbrella"
  | .scheduled_items => "scheduled_items"

/-- Modelled from the spec: a coverage item of a policy (type, limit,
deductible, endorsement flags). -/
structure CoverageItem where
  coverage_type : CoverageType
  limit : ℤ
  deductible : ℤ
  endorsements : List String
deriving DecidableEq

/-- Modelled from the spec: contextual hazard data for the policy location
(coastal / wildfire / earthquake zone flags). -/
structure HazardData where
  coastal : Bool
  wildfire : Bool
  earthquake_zone : Bool
deriving DecidableEq

/-- Modelled from the spec: the structured policy input.  Property attributes
are optional so that the structural validation of PolicyAnalyzer (which
requires the policy number and at least one property attribute) is
representable.  Hazard data is optional: when unavailable the hazard rules of
RiskAssessor degrade to "not applicable". -/
structure PolicyInput where
  policy_number : String
  customer_name : String
  location : Option String
  construction_type : Option String
  year_built : Option Nat
  reconstruction_value : Option ℤ
  hazard : Option HazardData
  coverage_items : List CoverageItem
  effective_date : String
deriving DecidableEq

/-- Modelled from the spec: a derived risk factor (name and severity weight). -/
structure RiskFactor where
  name : String
  weight : Nat
deriving DecidableEq

/-- Modelled from the spec: the structural validation failure of
PolicyAnalyzer; the only error that crosses the orchestrator boundary. -/
structure MalformedPolicyError where
  message : String
deriving DecidableEq

/-- Modelled from the spec: the coverage profile extracted by PolicyAnalyzer —
items grouped by type with a per-type effective limit, and a
coverage-to-value figure for the dwelling type.  The endorsement adjustment
formula is not revealed by the fragment; the effective limit is the aggregate
of the item limits of the type. -/
structure CoverageProfile where
  limits : List (CoverageType × ℤ)
  coverage_to_value : Option (ℤ × ℤ)
deriving DecidableEq

/-- Effective limit recorded for a coverage type, absent when the type has no
item in the policy. -/
def CoverageProfile.limitFor (profile : CoverageProfile) (t : CoverageType) : Option ℤ :=
  (profile.limits.find? (fun e => e.1 = t)).map (fun e => e.2)

namespace PolicyAnalyzer

/-- Grouping of coverage items by type, in order of first appearance, with the
per-type effective limit. -/
def groupLimits (items : List CoverageItem) : List (CoverageType × ℤ) :=
  ((items.map (fun i => i.coverage_type)).dedup).map
    (fun t => (t, ((items.filter (fun i => i.coverage_type = t)).map (fun i => i.limit)).sum))

/-- Modelled from the spec: structural validation — the policy number and at
least one property attribute must be present. -/
def structurallyValid (p : PolicyInput) : Bool :=
  !(p.policy_number = "") &&
    (p.location.isSome || p.construction_type.isSome ||
      p.year_built.isSome || p.reconstruction_value.isSome)

/-- Coverage profile of a policy: grouped limits and dwelling
coverage-to-value. -/
def profileOf (p : PolicyInput) : CoverageProfile :=
  let limits := groupLimits p.coverage_items
  let ctv :=
    match p.reconstruction_value, (limits.find? (fun e => e.1 = CoverageType.dwelling)).map (fun e => e.2) with
    | some v, some l => if v = 0 then none else some (l, v)
    | _, _ => none
  { limits := limits, coverage_to_value := ctv }

/-- Modelled from the spec: `PolicyAnalyzer.analyze` — fails with
`MalformedPolicyError` exactly when structural validation fails, otherwise
produces the coverage profile.  A policy with zero coverage items is valid. -/
def analyze (p : PolicyInput) : Except MalformedPolicyError CoverageProfile :=
  if structurallyValid p then .ok (profileOf p)
  else .error { message := "Missing required structural fields" }

end PolicyAnalyzer

namespace RiskAssessor

/-- Modelled from the spec: `RiskAssessor.assess` — a fixed set of pure
heuristic rules evaluated in declaration order; unavailable hazard data
degrades the hazard rules to "not applicable" instead of raising. -/
def assess (profile : CoverageProfile) (p : PolicyInput) : List RiskFactor :=
  (match p.hazard with
   | none => []
   | some h =>
     (if h.coastal then [{ name := "Coastal location", weight := 3 }] else []) ++
     (if h.wildfire then [{ name := "Wildfire zone", weight := 3 }] else []) ++
     (if h.earthquake_zone then [{ name := "Earthquake zone", weight := 3 }] else [])) ++
  (match p.year_built with
   | some y => if y < 1980 then [{ name := "Older construction", weight := 2 }] else []
   | none => []) ++
  (match p.reconstruction_value, profile.limitFor CoverageType.dwelling with
   | some v, some l =>
     if l < v then [{ name := "Dwelling limit below reconstruction value", weight := 3 }] else []
   | some _, none => [{ name := "No dwelling coverage", weight := 3 }]
   | _, _ => [])

end RiskAssessor

/-- Modelled from the spec: a catalog entry — applicability predicate over the
policy/risk context, required coverage type, minimum recommended limit (a
function of the policy, so it may depend on property value), rationale text,
base severity, and the names of the risk factors that trigger/raise it. -/
structure BestPracticeRule where
  coverage_type : CoverageType
  applies : PolicyInput → List RiskFactor → Bool
  min_limit : PolicyInput → ℤ
  rationale : String
  base_severity : RiskSeverity
  relevant_factors : List String

/-- Modelled from the spec: a candidate gap finding produced by
BestPracticeChecker; `shortfall` is `none` for wholly missing coverage and
the limit shortfall for inadequate coverage. -/
structure CandidateGap where
  gap_type : CoverageType
  severity : RiskSeverity
  rationale : String
  risk_factors : List String
  shortfall : Option ℤ
deriving DecidableEq

namespace BestPracticeChecker

/-- Whether a rule matches: its applicability predicate holds and the relevant
coverage is either absent from the profile or below the rule's minimum
recommended limit. -/
def ruleMatches (r : BestPracticeRule) (p : PolicyInput) (profile : CoverageProfile)
    (risk : List RiskFactor) : Bool :=
  r.applies p risk &&
    (match profile.limitFor r.coverage_type with
     | none => true
     | some l => decide (l < r.min_limit p))

/-- Candidate emitted for a matching rule: it carries the rule's rationale and
base severity plus the triggering risk factors of the risk profile that are
relevant to the rule. -/
def mkCandidate (r : BestPracticeRule) (p : PolicyInput) (profile : CoverageProfile)
    (risk : List RiskFactor) : CandidateGap :=
  { gap_type := r.coverage_type
    severity := r.base_severity
    rationale := r.rationale
    risk_factors := (risk.map (fun f => f.name)).filter (fun n => n ∈ r.relevant_factors)
    shortfall := (profile.limitFor r.coverage_type).map (fun l => r.min_limit p - l) }

/-- Modelled from the spec: `BestPracticeChecker.check` — one candidate per
matching rule; all matching candidates are preserved (deduplication happens
downstream in GapReasoner). -/
def check (p : PolicyInput) (profile : CoverageProfile) (risk : List RiskFactor)
    (catalog : List BestPracticeRule) : List CandidateGap :=
  catalog.filterMap
    (fun r => if ruleMatches r p profile risk then some (mkCandidate r p profile risk) else none)

end BestPracticeChecker

/-- Modelled from the spec: the final gap record (spec section 3). -/
structure CoverageGap where
  gap_type : CoverageType
  severity : RiskSeverity
  title : String
  explanation : String
  recommendation : String
  estimated_annual_premium : Option ℤ
  risk_factors : List String
deriving DecidableEq

namespace GapReasoner

/-- Maximum of two severities in the High > Medium > Low order. -/
def maxSev (a b : RiskSeverity) : RiskSeverity :=
  if a.rank ≤ b.rank then b else a

/-- Maximum severity of a list of severities (Low when empty). -/
def maxSevList (l : List RiskSeverity) : RiskSeverity :=
  l.foldl maxSev RiskSeverity.Low

/-- Severity escalation: one level up, capped at High. -/
def escalate : RiskSeverity → RiskSeverity
  | .Low => .Medium
  | .Medium => .High
  | .High => .High

/-- Modelled from the spec: the deterministic cost model's flat annual premium
estimate for wholly missing coverage, absent for gap types with no applicable
rate. -/
def flatRate : CoverageType → Option ℤ
  | .dwelling => some 800
  | .liability => some 300
  | .personal_property => some 250
  | .flood => some 1200
  | .earthquake => some 900
  | .umbrella => some 400
  | .scheduled_items => none

/-- Modelled from the spec: per-gap-type base rate of the cost model as a
whole percentage of the limit shortfall, absent for gap types with no
applicable rate. -/
def percentRate : CoverageType → Option ℤ
  | .dwelling => some 3
  | .liability => some 1
  | .personal_property => some 2
  | .flood => some 4
  | .earthquake => some 5
  | .umbrella => some 1
  | .scheduled_items => none

/-- Premium estimation for a merged finding: flat rate for wholly missing
coverage, base rate scaled by the shortfall otherwise; absent when the model
has no rate for the gap type. -/
def estimatePremium (t : CoverageType) (shortfall : Option ℤ) : Option ℤ :=
  match shortfall with
  | none => flatRate t
  | some s => (percentRate t).map (fun r => r * s / 100)

/-- Intermediate merged finding (after step (a) of GapReasoner). -/
structure MergedFinding where
  gap_type : CoverageType
  severity : RiskSeverity
  rationale : String
  risk_factors : List String
  shortfall : Option ℤ
deriving DecidableEq

/-- Candidate with the most specific (longest) rationale; earlier candidates
win ties, making the choice deterministic. -/
def pickMostSpecific : List CandidateGap → Option CandidateGap
  | [] => none
  | c :: cs =>
    some (cs.foldl (fun best d => if best.rationale.length < d.rationale.length then d else best) c)

/-- Merge step (a): candidates sharing a gap type become one finding, with the
union (order-preserving, deduplicated) of their risk factors, the highest
severity, and rationale/shortfall taken from the most specific (longest)
rationale candidate. -/
def mergeGroup (t : CoverageType) (group : List CandidateGap) : MergedFinding :=
  match pickMostSpecific group with
  | some c =>
    { gap_type := t
      severity := maxSevList (group.map (fun d => d.severity))
      rationale := c.rationale
      risk_factors := ((group.map (fun d => d.risk_factors)).flatten).dedup
      shortfall := c.shortfall }
  | none =>
    { gap_type := t, severity := .Low, rationale := "", risk_factors := [], shortfall := none }

/-- Merged findings of a candidate list, one per distinct gap type, in order
of first appearance. -/
def mergedOf (cs : List CandidateGap) : List MergedFinding :=
  ((cs.map (fun c => c.gap_type)).dedup).map (fun t => mergeGroup t (cs.filter (fun c => c.gap_type = t)))

/-- Steps (b)-(d) on one merged finding: severity escalation when two or more
risk factors corroborate it, premium estimation, and deterministic
template-based title/explanation/recommendation composition. -/
def finalize (m : MergedFinding) : CoverageGap :=
  { gap_type := m.gap_type
    severity := if 2 ≤ m.risk_factors.length then escalate m.severity else m.severity
    title := m.rationale
    explanation := "This gap was identified because: " ++ m.rationale
    recommendation := "Review and add or increase " ++ m.gap_type.value ++ " coverage."
    estimated_annual_premium := estimatePremium m.gap_type m.shortfall
    risk_factors := m.risk_factors }

/-- Premium component of the sort key: larger premiums first, absent
premiums last. -/
def premKey : Option ℤ → WithTop ℤ
  | none => (⊤ : WithTop ℤ)
  | some q => ((-q : ℤ) : WithTop ℤ)

/-- Sort key realizing step (e): severity descending, then estimated premium
descending with absent estimates last, then gap type label ascending. -/
def sortKey (g : CoverageGap) : Lex (Nat × Lex (WithTop ℤ × String)) :=
  toLex (2 - g.severity.rank, toLex (premKey g.estimated_annual_premium, g.gap_type.value))

/-- Order used by step (e). -/
def gapOrder (a b : CoverageGap) : Prop :=
  sortKey a ≤ sortKey b

instance : DecidableRel gapOrder :=
  fun a b => inferInstanceAs (Decidable (sortKey a ≤ sortKey b))

instance : IsTotal CoverageGap gapOrder :=
  ⟨fun a b => le_total (sortKey a) (sortKey b)⟩

instance : IsTrans CoverageGap gapOrder :=
  ⟨fun _ _ _ hab hbc => le_trans hab hbc⟩

/-- Modelled from the spec: `GapReasoner.synthesize` — merge, escalate,
estimate, compose, and sort deterministically. -/
def synthesize (cs : List CandidateGap) : List CoverageGap :=
  List.insertionSort gapOrder ((mergedOf cs).map finalize)

end GapReasoner

/-- Modelled from the spec: the final analysis result (spec section 3). -/
structure AnalysisResult where
  policy_number : String
  customer_name : String
  total_gaps_found : Nat
  coverage_gaps : List CoverageGap
  total_estimated_premium_impact : ℤ
  analysis_summary : String
deriving DecidableEq

namespace Orchestrator

/-- Summary used when the final gap list is empty: adequate coverage. -/
def adequateCoverageSummary : String :=
  "No significant coverage gaps identified. The policy provides adequate protection."

/-- Modelled from the spec: the orchestrator composes the summary from the
final gap list (counts by severity, total premium impact). -/
def composeSummary (gaps : List CoverageGap) (impact : ℤ) : String :=
  if gaps.isEmpty then adequateCoverageSummary
  else
    "Identified " ++ toString gaps.length ++ " coverage gaps (" ++
      toString (gaps.countP (fun g => decide (g.severity = RiskSeverity.High))) ++
      " high severity). Estimated annual premium impact: " ++ toString impact ++ "."

/-- Modelled from the spec: `Orchestrator.analyze_policy` — runs the stages in
dependency order; a structural validation failure aborts the call with the
same error; otherwise a valid result is always produced, with
`total_gaps_found` the gap count and `total_estimated_premium_impact` the sum
of the present premium estimates. -/
def analyze_policy (catalog : List BestPracticeRule) (p : PolicyInput) :
    Except MalformedPolicyError AnalysisResult :=
  match PolicyAnalyzer.analyze p with
  | .error e => .error e
  | .ok profile =>
    let risk := RiskAssessor.assess profile p
    let candidates := BestPracticeChecker.check p profile risk catalog
    let gaps := GapReasoner.synthesize candidates
    let impact := (gaps.filterMap (fun g => g.estimated_annual_premium)).sum
    .ok { policy_number := p.policy_number
          customer_name := p.customer_name
          total_gaps_found := gaps.length
          coverage_gaps := gaps
          total_estimated_premium_impact := impact
          analysis_summary := composeSummary gaps impact }

end Orchestrator

/-- Risk profile computed for a policy by the pipeline (helper for stating
properties). -/
def riskProfileOf (p : PolicyInput) : List RiskFactor :=
  RiskAssessor.assess (PolicyAnalyzer.profileOf p) p

/-- Candidate gaps computed for a policy against a catalog by the pipeline
(helper for stating properties). -/
def candidatesOf (catalog : List BestPracticeRule) (p : PolicyInput) : List CandidateGap :=
  BestPracticeChecker.check p (PolicyAnalyzer.profileOf p) (riskProfileOf p) catalog

/-- Placeholder result used only to give `resOf` a total type; never produced
by a successful analysis. -/
def emptyResult (p : PolicyInput) : AnalysisResult :=
  { policy_number := p.policy_number
    customer_name := p.customer_name
    total_gaps_found := 0
    coverage_gaps := []
    total_estimated_premium_impact := 0
    analysis_summary := Orchestrator.adequateCoverageSummary }

/-- Successful analysis result of a policy (helper for stating concrete
evaluations). -/
def resOf (catalog : List BestPracticeRule) (p : PolicyInput) : AnalysisResult :=
  match Orchestrator.analyze_policy catalog p with
  | .ok r => r
  | .error _ => emptyResult p

namespace StreamlitApp

/-- Plain serialized gap record, as assembled into the session state by
`main` in `streamlit_app_standalone.py` (each enum exposed via `.value`). -/
structure GapRecord where
  gap_type : String
  severity : String
  title : String
  explanation : String
  recommendation : String
  estimated_annual_premium : Option ℤ
  risk_factors : List String
deriving DecidableEq

/-- Serialization of one coverage gap at the output boundary
(`streamlit_app_standalone.py`, the per-gap dictionary of `main`). -/
def serializeGap (g : CoverageGap) : GapRecord :=
  { gap_type := g.gap_type.value
    severity := g.severity.value
    title := g.title
    explanation := g.explanation
    recommendation := g.recommendation
    estimated_annual_premium := g.estimated_annual_premium
    risk_factors := g.risk_factors }

/-- Plain serialized analysis result, as stored in
`st.session_state['analysis_result']` by `main`. -/
structure AnalysisResultRecord where
  policy_number : String
  customer_name : String
  total_gaps_found : Nat
  coverage_gaps : List GapRecord
  total_estimated_premium_impact : ℤ
  analysis_summary : String
deriving DecidableEq

/-- Serialization of the analysis result at the output boundary
(`streamlit_app_standalone.py`, the session-state dictionary of `main`). -/
def serializeResult (r : AnalysisResult) : AnalysisResultRecord :=
  { policy_number := r.policy_number
    customer_name := r.customer_name
    total_gaps_found := r.total_gaps_found
    coverage_gaps := r.coverage_gaps.map serializeGap
    total_estimated_premium_impact := r.total_estimated_premium_impact
    analysis_summary := r.analysis_summary }

/-- Python truthiness of an optional numeric value: `None` and `0` are falsy,
every other number is truthy. -/
def pyTruthyNum : Option ℤ → Bool
  | none => false
  | some x => decide (x ≠ 0)

/-- Money formatting at the presentation boundary; the digit-grouping format
of the source is abstracted into the exact decimal value. -/
def formatMoney (q : ℤ) : String :=
  toString q

/-- Premium line of the gap card, present exactly when the serialized
premium is truthy (`streamlit_app_standalone.py`, the conditional f-string of
the gap card in `main`). -/
def premiumLineHtml (e : Option ℤ) : String :=
  if pyTruthyNum e then
    "<p><strong>Estimated Premium:</strong> $" ++ formatMoney (e.getD 0) ++ "/year</p>"
  else ""

/-- Risk-factor line of the gap card, present exactly when the list is truthy
(non-empty). -/
def riskFactorsLineHtml (fs : List String) : String :=
  if fs.isEmpty then ""
  else "<p><strong>Risk Factors:</strong> " ++ String.intercalate ", " fs ++ "</p>"

/-- Gap card rendered by `main` for one serialized gap
(`streamlit_app_standalone.py`, the markdown block of the results loop). -/
def gapCardHtml (g : GapRecord) : String :=
  "<div class=\"gap-card gap-" ++ g.severity.toLower ++ "\">" ++
    "<div style=\"display: flex; justify-content: space-between; align-items: center; margin-bottom: 1rem;\">" ++
      "<h3 style=\"margin: 0;\">" ++ g.title ++ "</h3>" ++
      "<span class=\"severity-badge severity-" ++ g.severity.toLower ++ "\">" ++
        g.severity ++ " Risk</span>" ++
    "</div>" ++
    "<p><strong>Why this matters:</strong> " ++ g.explanation ++ "</p>" ++
    "<p><strong>Recommendation:</strong> " ++ g.recommendation ++ "</p>" ++
    premiumLineHtml g.estimated_annual_premium ++
    riskFactorsLineHtml g.risk_factors ++
  "</div>"

end StreamlitApp

/-- Concrete hazard data: a coastal location. -/
def sampleHazard : HazardData :=
  { coastal := true, wildfire := false, earthquake_zone := false }

/-- Concrete rule: coastal properties need flood coverage (High severity). -/
def floodRule : BestPracticeRule :=
  { coverage_type := .flood
    applies := fun p _ => match p.hazard with | some h => h.coastal | none => false
    min_limit := fun _ => 250000
    rationale := "Coastal properties face storm-surge flood risk that standard policies exclude"
    base_severity := .High
    relevant_factors := ["Coastal location"] }

/-- Concrete rule: the dwelling limit should reach the reconstruction value. -/
def dwellingRule : BestPracticeRule :=
  { coverage_type := .dwelling
    applies := fun _ _ => true
    min_limit := fun p => p.reconstruction_value.getD 0
    rationale := "Dwelling limit should cover the full reconstruction value"
    base_severity := .Medium
    relevant_factors := ["Dwelling limit below reconstruction value"] }

/-- Concrete rule: valuables benefit from scheduled item coverage. -/
def scheduledItemsRule : BestPracticeRule :=
  { coverage_type := .scheduled_items
    applies := fun _ _ => true
    min_limit := fun _ => 50000
    rationale := "Valuables benefit from scheduled item coverage"
    base_severity := .Low
    relevant_factors := [] }

/-- Concrete policy used to instantiate the proved properties: a coastal 1975
home insured for 240000 against a 400000 reconstruction value. -/
def samplePolicy : PolicyInput :=
  { policy_number := "POL-1001"
    customer_name := "Jane Roe"
    location := some "Miami, FL"
    construction_type := some "frame"
    year_built := some 1975
    reconstruction_value := some 400000
    hazard := some sampleHazard
    coverage_items :=
      [ { coverage_type := .dwelling, limit := 240000, deductible := 1000, endorsements := [] } ]
    effective_date := "2025-01-01" }

/-- Concrete catalog used to instantiate the proved properties. -/
def sampleCatalog : List BestPracticeRule :=
  [floodRule, dwellingRule, scheduledItemsRule]

/-- Concrete structurally invalid policy: empty policy number. -/
def invalidPolicy : PolicyInput :=
  { policy_number := ""
    customer_name := "John Doe"
    location := some "Chicago, IL"
    construction_type := none
    year_built := none
    reconstruction_value := none
    hazard := none
    coverage_items := []
    effective_date := "2025-01-01" }

/-- Concrete policy with zero coverage items (valid input: the policy number
and the year-built attribute are present). -/
def bareSamplePolicy : PolicyInput :=
  { policy_number := "POL-2002"
    customer_name := "Ann Lee"
    location := some "Miami, FL"
    construction_type := none
    year_built := some 1960
    reconstruction_value := none
    hazard := some sampleHazard
    coverage_items := []
    effective_date := "2025-02-01" }

/-- Concrete catalog in which two rules target the flood gap type with
distinct triggering risk factors. -/
def dupFloodCatalog : List BestPracticeRule :=
  [ { coverage_type := .flood
      applies := fun p _ => match p.hazard with | some h => h.coastal | none => false
      min_limit := fun _ => 250000
      rationale := "Coastal homes need flood coverage"
      base_severity := .Low
      relevant_factors := ["Coastal location"] },
    { coverage_type := .flood
      applies := fun _ _ => true
      min_limit := fun _ => 250000
      rationale := "Homes in flood-prone regions should carry dedicated flood insurance"
      base_severity := .Low
      relevant_factors := ["Older construction"] } ]

/-- Result produced on the happy path (structural validation passed). -/
def happyResult (catalog : List BestPracticeRule) (p : PolicyInput) : AnalysisResult :=
  let gaps := GapReasoner.synthesize (candidatesOf catalog p)
  let impact := (gaps.filterMap (fun g => g.estimated_annual_premium)).sum
  { policy_number := p.policy_number
    customer_name := p.customer_name
    total_gaps_found := gaps.length
    coverage_gaps := gaps
    total_estimated_premium_impact := impact
    analysis_summary := Orchestrator.composeSummary gaps impact }

theorem analyze_policy_eq_of_valid (catalog : List BestPracticeRule) (p : PolicyInput)
    (h : PolicyAnalyzer.structurallyValid p = true) :
    Orchestrator.analyze_policy catalog p = .ok (happyResult catalog p) := by
  simp [Orchestrator.analyze_policy, PolicyAnalyzer.analyze, h, happyResult,
    candidatesOf, riskProfileOf]

theorem analyze_policy_eq_of_invalid (catalog : List BestPracticeRule) (p : PolicyInput)
    (h : PolicyAnalyzer.structurallyValid p = false) :
    Orchestrator.analyze_policy catalog p =
      .error { message := "Missing required structural fields" } := by
  simp [Orchestrator.analyze_policy, PolicyAnalyzer.analyze, h]

theorem analyze_policy_ok_inv (catalog : List BestPracticeRule) (p : PolicyInput)
    (r : AnalysisResult) (h : Orchestrator.analyze_policy catalog p = .ok r) :
    PolicyAnalyzer.structurallyValid p = true ∧ r = happyResult catalog p := by
  by_cases hv : PolicyAnalyzer.structurallyValid p = true
  · refine ⟨hv, ?_⟩
    rw [analyze_policy_eq_of_valid catalog p hv] at h
    exact (Except.ok.inj h).symm
  · rw [analyze_policy_eq_of_invalid catalog p (Bool.not_eq_true _ ▸ hv)] at h
    exact absurd h (by simp)

theorem sum_filterMap_eq_sum_getD (l : List CoverageGap) :
    ((l.filterMap (fun g => g.estimated_annual_premium)).sum : ℤ)
      = (l.map (fun g => g.estimated_annual_premium.getD 0)).sum := by
  induction l with
  | nil => rfl
  | cons g t ih =>
    cases hg : g.estimated_annual_premium with
    | none => simp [List.filterMap_cons, hg, ih]
    | some q => simp [List.filterMap_cons, hg, ih]

/-- C1: for every AnalysisResult returned by analyze_policy,
`total_gaps_found` equals the length of the `coverage_gaps` sequence. -/
theorem total_gaps_found_eq_length (catalog : List BestPracticeRule) (p : PolicyInput)
    (r : AnalysisResult) (h : Orchestrator.analyze_policy catalog p = .ok r) :
    r.total_gaps_found = r.coverage_gaps.length := by
  obtain ⟨-, rfl⟩ := analyze_policy_ok_inv catalog p r h
  rfl

/-- Witness for C1 at a concrete catalog and policy. -/
theorem total_gaps_found_eq_length_witness :
    (resOf sampleCatalog samplePolicy).total_gaps_found
      = (resOf sampleCatalog samplePolicy).coverage_gaps.length :=
  total_gaps_found_eq_length sampleCatalog samplePolicy (resOf sampleCatalog samplePolicy) rfl

/-- C2: for every AnalysisResult returned by analyze_policy,
`total_estimated_premium_impact` equals the exact sum of the present
`estimated_annual_premium` values; gaps with an absent estimate contribute 0
and are never replaced by an implicit default. -/
theorem premium_impact_exact_sum (catalog : List BestPracticeRule) (p : PolicyInput)
    (r : AnalysisResult) (h : Orchestrator.analyze_policy catalog p = .ok r) :
    r.total_estimated_premium_impact
        = ((r.coverage_gaps.filter (fun g => g.estimated_annual_premium.isSome)).filterMap
            (fun g => g.estimated_annual_premium)).sum
      ∧ r.total_estimated_premium_impact
        = (r.coverage_gaps.map (fun g => g.estimated_annual_premium.getD 0)).sum := by
  obtain ⟨-, rfl⟩ := analyze_policy_ok_inv catalog p r h
  constructor
  · show (List.filterMap _ _).sum = _
    rw [List.filterMap_filter]
    congr 1
    apply List.filterMap_congr
    intro g _
    cases hg : g.estimated_annual_premium <;> simp [hg]
  · exact sum_filterMap_eq_sum_getD _

/-- Spec-side relation: a present premium sorts strictly before an absent
one, and among present premiums the larger sorts strictly first. -/
def PremStrictBefore : Option ℤ → Option ℤ → Prop
  | some x, some y => y < x
  | some _, none => True
  | none, _ => False

instance instDecPremStrictBefore (x y : Option ℤ) : Decidable (PremStrictBefore x y) :=
  match x, y with
  | some x, some y => inferInstanceAs (Decidable (y < x))
  | some _, none => inferInstanceAs (Decidable True)
  | none, some _ => inferInstanceAs (Decidable False)
  | none, none => inferInstanceAs (Decidable False)

/-- Spec-side ordering of the claim: severity descending, ties broken by
estimated premium descending with absent estimates last, remaining ties by
gap type label ascending. -/
def SpecOrderedBefore (a b : CoverageGap) : Prop :=
  b.severity.rank < a.severity.rank ∨
    (a.severity.rank = b.severity.rank ∧
      (PremStrictBefore a.estimated_annual_premium b.estimated_annual_premium ∨
        (a.estimated_annual_premium = b.estimated_annual_premium ∧
          a.gap_type.value ≤ b.gap_type.value)))

instance instDecSpecOrderedBefore (a b : CoverageGap) : Decidable (SpecOrderedBefore a b) := by
  unfold SpecOrderedBefore
  infer_instance

theorem rank_lt_of_flip (a b : RiskSeverity) (h : 2 - a.rank < 2 - b.rank) :
    b.rank < a.rank := by
  revert h
  cases a <;> cases b <;> decide

theorem rank_eq_of_flip (a b : RiskSeverity) (h : 2 - a.rank = 2 - b.rank) :
    a.rank = b.rank := by
  revert h
  cases a <;> cases b <;> decide

theorem premStrictBefore_of_lt (x y : Option ℤ)
    (h : GapReasoner.premKey x < GapReasoner.premKey y) : PremStrictBefore x y := by
  cases x with
  | some a =>
    cases y with
    | some b =>
      have h' : (-a : ℤ) < -b :=
        WithTop.coe_lt_coe.mp (h : (((-a : ℤ) : WithTop ℤ)) < (((-b : ℤ) : WithTop ℤ)))
      show b < a
      omega
    | none => trivial
  | none =>
    cases y with
    | some b => simp [GapReasoner.premKey] at h
    | none => simp [GapReasoner.premKey] at h

theorem premKey_inj (x y : Option ℤ)
    (h : GapReasoner.premKey x = GapReasoner.premKey y) : x = y := by
  cases x with
  | some a =>
    cases y with
    | some b =>
      have h' : (-a : ℤ) = -b :=
        WithTop.coe_inj.mp (h : (((-a : ℤ) : WithTop ℤ)) = (((-b : ℤ) : WithTop ℤ)))
      have hab : a = b := by omega
      rw [hab]
    | none => exact absurd (h : (((-a : ℤ) : WithTop ℤ)) = ⊤) (WithTop.coe_ne_top)
  | none =>
    cases y with
    | some b => exact absurd (h : (⊤ : WithTop ℤ) = (((-b : ℤ) : WithTop ℤ))).symm WithTop.coe_ne_top
    | none => rfl

theorem gapOrder_imp_specOrdered (a b : CoverageGap) (h : GapReasoner.gapOrder a b) :
    SpecOrderedBefore a b := by
  unfold GapReasoner.gapOrder GapReasoner.sortKey at h
  rcases (Prod.Lex.le_iff _ _).mp h with h1 | ⟨h1, h2⟩
  · exact Or.inl (rank_lt_of_flip _ _ h1)
  · refine Or.inr ⟨rank_eq_of_flip _ _ h1, ?_⟩
    rcases (Prod.Lex.le_iff _ _).mp h2 with h3 | ⟨h3, h4⟩
    · exact Or.inl (premStrictBefore_of_lt _ _ h3)
    · exact Or.inr ⟨premKey_inj _ _ h3, h4⟩

/-- C4: the coverage_gaps sequence of every returned AnalysisResult is sorted
by severity descending, ties broken by estimated premium descending with
absent estimates last, and remaining ties by gap type in ascending lexical
order. -/
theorem coverage_gaps_sorted (catalog : List BestPracticeRule) (p : PolicyInput)
    (r : AnalysisResult) (h : Orchestrator.analyze_policy catalog p = .ok r) :
    List.Pairwise SpecOrderedBefore r.coverage_gaps := by
  obtain ⟨-, rfl⟩ := analyze_policy_ok_inv catalog p r h
  have hs : List.Sorted GapReasoner.gapOrder (happyResult catalog p).coverage_gaps :=
    List.sorted_insertionSort GapReasoner.gapOrder _
  exact List.Pairwise.imp (fun hxy => gapOrder_imp_specOrdered _ _ hxy) hs

/-- Witness for C4 at a concrete catalog and policy. -/
theorem coverage_gaps_sorted_witness :
    List.Pairwise SpecOrderedBefore (resOf sampleCatalog samplePolicy).coverage_gaps :=
  coverage_gaps_sorted sampleCatalog samplePolicy (resOf sampleCatalog samplePolicy) rfl

theorem maxSevList_singleton (s : RiskSeverity) : GapReasoner.maxSevList [s] = s := by
  cases s <;> rfl

theorem synthesize_singleton (c : CandidateGap) :
    GapReasoner.synthesize [c] =
      [GapReasoner.finalize (GapReasoner.mergeGroup c.gap_type [c])] := by
  simp [GapReasoner.synthesize, GapReasoner.mergedOf, List.insertionSort, List.orderedInsert]

theorem rank_le_escalate (s : RiskSeverity) : s.rank ≤ (GapReasoner.escalate s).rank := by
  cases s <;> decide

/-- Concrete candidate corroborated by two distinct risk factors. -/
def cand2 : CandidateGap :=
  { gap_type := .flood, severity := .Low, rationale := "Coastal exposure",
    risk_factors := ["Coastal location", "Older construction"], shortfall := none }

/-- Concrete candidate corroborated by exactly one risk factor, otherwise
identical to `cand2`. -/
def cand1 : CandidateGap :=
  { gap_type := .flood, severity := .Low, rationale := "Coastal exposure",
    risk_factors := ["Coastal location"], shortfall := none }

/-- C5: a merged finding corroborated by two or more independent risk factors
has its severity raised exactly one level (capped at High); consequently a
gap type backed by at least two corroborating risk factors never ends with
lower severity than the identical gap type backed by exactly one, all else
equal. -/
theorem severity_escalation (t : CoverageType) (sev : RiskSeverity) (rat : String)
    (sh : Option ℤ) (fs fs1 : List String)
    (h2 : 2 ≤ fs.dedup.length) (h1 : fs1.dedup.length = 1) :
    (∀ g ∈ GapReasoner.synthesize
        [{ gap_type := t, severity := sev, rationale := rat, risk_factors := fs, shortfall := sh }],
      g.severity = GapReasoner.escalate sev)
    ∧ (∀ g ∈ GapReasoner.synthesize
        [{ gap_type := t, severity := sev, rationale := rat, risk_factors := fs1, shortfall := sh }],
      g.severity = sev)
    ∧ (∀ ga ∈ GapReasoner.synthesize
        [{ gap_type := t, severity := sev, rationale := rat, risk_factors := fs, shortfall := sh }],
       ∀ gb ∈ GapReasoner.synthesize
        [{ gap_type := t, severity := sev, rationale := rat, risk_factors := fs1, shortfall := sh }],
        gb.severity.rank ≤ ga.severity.rank)
    ∧ (GapReasoner.escalate sev).rank = min (sev.rank + 1) RiskSeverity.High.rank := by
  have hA : ∀ g ∈ GapReasoner.synthesize
      [{ gap_type := t, severity := sev, rationale := rat, risk_factors := fs, shortfall := sh }],
      g.severity = GapReasoner.escalate sev := by
    intro g hg
    rw [synthesize_singleton] at hg
    rcases List.mem_singleton.mp hg with rfl
    simp [GapReasoner.finalize, GapReasoner.mergeGroup, GapReasoner.pickMostSpecific,
      maxSevList_singleton, h2]
  have hB : ∀ g ∈ GapReasoner.synthesize
      [{ gap_type := t, severity := sev, rationale := rat, risk_factors := fs1, shortfall := sh }],
      g.severity = sev := by
    intro g hg
    rw [synthesize_singleton] at hg
    rcases List.mem_singleton.mp hg with rfl
    have hnot : ¬ 2 ≤ fs1.dedup.length := by omega
    simp [GapReasoner.finalize, GapReasoner.mergeGroup, GapReasoner.pickMostSpecific,
      maxSevList_singleton, hnot]
  refine ⟨hA, hB, ?_, by cases sev <;> decide⟩
  intro ga hga gb hgb
  rw [hA ga hga, hB gb hgb]
  exact rank_le_escalate sev

/-- Witness for C5 at concrete candidates. -/
theorem severity_escalation_witness :
    (∀ g ∈ GapReasoner.synthesize [cand2], g.severity = GapReasoner.escalate RiskSeverity.Low)
    ∧ (∀ g ∈ GapReasoner.synthesize [cand1], g.severity = RiskSeverity.Low)
    ∧ (∀ ga ∈ GapReasoner.synthesize [cand2], ∀ gb ∈ GapReasoner.synthesize [cand1],
        gb.severity.rank ≤ ga.severity.rank)
    ∧ (GapReasoner.escalate RiskSeverity.Low).rank
        = min (RiskSeverity.Low.rank + 1) RiskSeverity.High.rank :=
  severity_escalation .flood .Low "Coastal exposure" none
    ["Coastal location", "Older construction"] ["Coastal location"] (by decide) (by decide)

/-- C6: analyze_policy fails exactly when structural validation fails, with
the same MalformedPolicyError and no partial result; every other condition,
including an empty candidate set (e.g. an empty catalog), still yields a
valid AnalysisResult with zero gaps and an adequate-coverage summary. -/
theorem error_propagation (catalog : List BestPracticeRule) (p : PolicyInput) :
    (∀ e, Orchestrator.analyze_policy catalog p = .error e ↔ PolicyAnalyzer.analyze p = .error e)
    ∧ (PolicyAnalyzer.structurallyValid p = true →
        ∃ res, Orchestrator.analyze_policy catalog p = .ok res)
    ∧ (candidatesOf catalog p = [] →
        ∀ res, Orchestrator.analyze_policy catalog p = .ok res →
          res.coverage_gaps = [] ∧ res.total_gaps_found = 0 ∧
            res.analysis_summary = Orchestrator.adequateCoverageSummary) := by
  refine ⟨?_, ?_, ?_⟩
  · intro e
    by_cases hv : PolicyAnalyzer.structurallyValid p = true
    · rw [analyze_policy_eq_of_valid catalog p hv]
      unfold PolicyAnalyzer.analyze
      rw [if_pos hv]
      simp
    · have hv' : PolicyAnalyzer.structurallyValid p = false := by
        cases hx : PolicyAnalyzer.structurallyValid p
        · rfl
        · exact absurd hx hv
      rw [analyze_policy_eq_of_invalid catalog p hv']
      unfold PolicyAnalyzer.analyze
      rw [if_neg (by simp [hv'])]
      constructor
      · intro h
        injection h with h'
        rw [h']
      · intro h
        injection h with h'
        rw [h']
  · intro hv
    exact ⟨happyResult catalog p, analyze_policy_eq_of_valid catalog p hv⟩
  · intro hcand res h
    obtain ⟨hv, rfl⟩ := analyze_policy_ok_inv catalog p res h
    have hgaps : GapReasoner.synthesize (candidatesOf catalog p) = [] := by
      rw [hcand]
      rfl
    refine ⟨?_, ?_, ?_⟩
    · show GapReasoner.synthesize (candidatesOf catalog p) = []
      exact hgaps
    · show (GapReasoner.synthesize (candidatesOf catalog p)).length = 0
      rw [hgaps]
      rfl
    · show Orchestrator.composeSummary (GapReasoner.synthesize (candidatesOf catalog p)) _
        = Orchestrator.adequateCoverageSummary
      rw [hgaps]
      rfl

/-- Witness for C6: the invalid policy fails with the structural error, and
an empty catalog still yields a valid result with zero gaps and the
adequate-coverage summary. -/
theorem error_propagation_witness :
    Orchestrator.analyze_policy sampleCatalog invalidPolicy
        = .error { message := "Missing required structural fields" }
    ∧ ((resOf [] samplePolicy).coverage_gaps = [] ∧ (resOf [] samplePolicy).total_gaps_found = 0 ∧
        (resOf [] samplePolicy).analysis_summary = Orchestrator.adequateCoverageSummary) :=
  ⟨((error_propagation sampleCatalog invalidPolicy).1 _).mpr rfl,
    (error_propagation [] samplePolicy).2.2 rfl (resOf [] samplePolicy) rfl⟩

/-- C7: two calls of analyze_policy with an identical PolicyInput and an
unchanged catalog return identical AnalysisResults, including the order of
coverage_gaps. -/
theorem analysis_deterministic (catalog : List BestPracticeRule) (p1 p2 : PolicyInput)
    (h : p1 = p2) :
    Orchestrator.analyze_policy catalog p1 = Orchestrator.analyze_policy catalog p2
    ∧ (resOf catalog p1).coverage_gaps = (resOf catalog p2).coverage_gaps := by
  subst h
  exact ⟨rfl, rfl⟩

/-- Witness for C7 at a concrete catalog and policy. -/
theorem analysis_deterministic_witness :
    Orchestrator.analyze_policy sampleCatalog samplePolicy
        = Orchestrator.analyze_policy sampleCatalog samplePolicy
    ∧ (resOf sampleCatalog samplePolicy).coverage_gaps
        = (resOf sampleCatalog samplePolicy).coverage_gaps :=
  analysis_deterministic sampleCatalog samplePolicy samplePolicy rfl

/-- C9: every serialized coverage gap exposes the severity enum as its string
label, which is exactly one of "High", "Medium" or "Low", and the gap type
enum as its category string label; the serialized result serializes each gap
this way. -/
theorem serialized_enum_labels (r : AnalysisResult) (g : CoverageGap) :
    ((StreamlitApp.serializeGap g).severity = "High" ∨
      (StreamlitApp.serializeGap g).severity = "Medium" ∨
      (StreamlitApp.serializeGap g).severity = "Low")
    ∧ (StreamlitApp.serializeGap g).severity = g.severity.value
    ∧ (StreamlitApp.serializeGap g).gap_type = g.gap_type.value
    ∧ (StreamlitApp.serializeResult r).coverage_gaps
        = r.coverage_gaps.map StreamlitApp.serializeGap := by
  refine ⟨?_, rfl, rfl, rfl⟩
  cases hg : g.severity <;>
    simp [StreamlitApp.serializeGap, RiskSeverity.value, hg]

theorem string_append_ne_empty (a b : String) (ha : a ≠ "") : a ++ b ≠ "" := by
  intro h
  apply ha
  apply String.ext
  have hd : a.data ++ b.data = [] := by
    simpa using congrArg String.data h
  simpa using (List.append_eq_nil.mp hd).1

/-- C10: the rendered gap card includes the "Estimated Premium" line exactly
when the premium is truthy in the Python sense, so a gap whose estimate is
exactly 0 renders identically to a gap whose estimate is absent. -/
theorem premium_line_truthiness (g : StreamlitApp.GapRecord) :
    StreamlitApp.gapCardHtml { g with estimated_annual_premium := some 0 }
        = StreamlitApp.gapCardHtml { g with estimated_annual_premium := none }
    ∧ (StreamlitApp.premiumLineHtml g.estimated_annual_premium ≠ ""
        ↔ (g.estimated_annual_premium ≠ none ∧ g.estimated_annual_premium ≠ some 0)) := by
  constructor
  · simp [StreamlitApp.gapCardHtml, StreamlitApp.premiumLineHtml, StreamlitApp.pyTruthyNum]
  · cases he : g.estimated_annual_premium with
    | none => simp [StreamlitApp.premiumLineHtml, StreamlitApp.pyTruthyNum]
    | some x =>
      by_cases hx : x = 0
      · subst hx
        simp [StreamlitApp.premiumLineHtml, StreamlitApp.pyTruthyNum]
      · have hline : StreamlitApp.premiumLineHtml (some x) =
            "<p><strong>Estimated Premium:</strong> $" ++ StreamlitApp.formatMoney x ++
              "/year</p>" := by
          simp [StreamlitApp.premiumLineHtml, StreamlitApp.pyTruthyNum, hx]
        constructor
        · intro _
          simp [hx]
        · intro _
          rw [hline]
          exact string_append_ne_empty _ _ (string_append_ne_empty _ _ (by decide))

/-- Witness for C10 at a concrete gap record. -/
theorem premium_line_truthiness_witness :
    (StreamlitApp.gapCardHtml
        { gap_type := "flood", severity := "High", title := "Flood gap",
          explanation := "e", recommendation := "r",
          estimated_annual_premium := some 0, risk_factors := [] }
      = StreamlitApp.gapCardHtml
        { gap_type := "flood", severity := "High", title := "Flood gap",
          explanation := "e", recommendation := "r",
          estimated_annual_premium := none, risk_factors := [] })
    ∧ (StreamlitApp.premiumLineHtml (some (1200 : ℤ)) ≠ ""
        ↔ ((some (1200 : ℤ)) ≠ none ∧ (some (1200 : ℤ)) ≠ some 0)) :=
  ⟨(premium_line_truthiness
      { gap_type := "flood", severity := "High", title := "Flood gap",
        explanation := "e", recommendation := "r",
        estimated_annual_premium := some 0, risk_factors := [] }).1,
    (premium_line_truthiness
      { gap_type := "flood", severity := "High", title := "Flood gap",
        explanation := "e", recommendation := "r",
        estimated_annual_premium := some 1200, risk_factors := [] }).2⟩

/-- Witness for C2 at a concrete catalog and policy. -/
theorem premium_impact_exact_sum_witness :
    (resOf sampleCatalog samplePolicy).total_estimated_premium_impact
        = (((resOf sampleCatalog samplePolicy).coverage_gaps.filter
              (fun g => g.estimated_annual_premium.isSome)).filterMap
            (fun g => g.estimated_annual_premium)).sum
      ∧ (resOf sampleCatalog samplePolicy).total_estimated_premium_impact
        = ((resOf sampleCatalog samplePolicy).coverage_gaps.map
            (fun g => g.estimated_annual_premium.getD 0)).sum :=
  premium_impact_exact_sum sampleCatalog samplePolicy (resOf sampleCatalog samplePolicy) rfl

theorem mergeGroup_gap_type (t : CoverageType) (group : List CandidateGap) :
    (GapReasoner.mergeGroup t group).gap_type = t := by
  unfold GapReasoner.mergeGroup
  split <;> rfl

theorem finalize_gap_type (m : GapReasoner.MergedFinding) :
    (GapReasoner.finalize m).gap_type = m.gap_type := rfl

theorem mergeGroup_severity (t : CoverageType) (group : List CandidateGap)
    (h : group ≠ []) :
    (GapReasoner.mergeGroup t group).severity
      = GapReasoner.maxSevList (group.map (fun c => c.severity)) := by
  cases group with
  | nil => exact absurd rfl h
  | cons c cs => rfl

theorem mergeGroup_risk_factors (t : CoverageType) (group : List CandidateGap)
    (h : group ≠ []) :
    (GapReasoner.mergeGroup t group).risk_factors
      = ((group.map (fun c => c.risk_factors)).flatten).dedup := by
  cases group with
  | nil => exact absurd rfl h
  | cons c cs => rfl

theorem finalize_severity (m : GapReasoner.MergedFinding) :
    (GapReasoner.finalize m).severity
      = if 2 ≤ m.risk_factors.length then GapReasoner.escalate m.severity else m.severity := rfl

theorem finalize_risk_factors (m : GapReasoner.MergedFinding) :
    (GapReasoner.finalize m).risk_factors = m.risk_factors := rfl

theorem maxSev_high_right (a : RiskSeverity) :
    GapReasoner.maxSev a .High = .High := by
  cases a <;> rfl

theorem maxSev_high_left (b : RiskSeverity) :
    GapReasoner.maxSev .High b = .High := by
  cases b <;> rfl

theorem foldl_maxSev_high (l : List RiskSeverity) :
    ∀ acc, (RiskSeverity.High ∈ l ∨ acc = .High) →
      l.foldl GapReasoner.maxSev acc = .High := by
  induction l with
  | nil =>
    intro acc h
    rcases h with h | rfl
    · cases h
    · rfl
  | cons s t ih =>
    intro acc h
    show List.foldl _ (GapReasoner.maxSev acc s) t = _
    apply ih
    rcases h with h | rfl
    · rcases List.mem_cons.mp h with rfl | h
      · exact Or.inr (maxSev_high_right acc)
      · exact Or.inl h
    · exact Or.inr (maxSev_high_left s)

theorem maxSevList_eq_high (l : List RiskSeverity) (h : RiskSeverity.High ∈ l) :
    GapReasoner.maxSevList l = .High :=
  foldl_maxSev_high l .Low (Or.inl h)

theorem mem_synthesize_of_type (cs : List CandidateGap) (t : CoverageType)
    (ht : t ∈ cs.map (fun c => c.gap_type)) :
    GapReasoner.finalize
        (GapReasoner.mergeGroup t (cs.filter (fun c => decide (c.gap_type = t))))
      ∈ GapReasoner.synthesize cs := by
  unfold GapReasoner.synthesize
  rw [List.mem_insertionSort]
  exact List.mem_map.mpr ⟨_, List.mem_map.mpr ⟨t, List.mem_dedup.mpr ht, rfl⟩, rfl⟩

theorem limitFor_of_zero_items (p : PolicyInput) (hzero : p.coverage_items = [])
    (t : CoverageType) : (PolicyAnalyzer.profileOf p).limitFor t = none := by
  simp [PolicyAnalyzer.profileOf, PolicyAnalyzer.groupLimits, CoverageProfile.limitFor, hzero]

/-- Modelled from the spec: a coverage type is property-critical for a policy
relative to the catalog when the catalog holds a High-base-severity rule for
that type whose applicability predicate holds in the policy's risk context
(the spec does not define "property-critical" beyond the catalog's contents). -/
def propertyCritical (catalog : List BestPracticeRule) (p : PolicyInput)
    (t : CoverageType) : Prop :=
  ∃ r ∈ catalog, r.coverage_type = t ∧ r.base_severity = RiskSeverity.High ∧
    r.applies p (riskProfileOf p) = true

/-- C8: a valid PolicyInput with zero CoverageItems does not fail, and the
result contains at least one High-severity CoverageGap for each
property-critical coverage type defined in the catalog. -/
theorem zero_items_high_gaps (catalog : List BestPracticeRule) (p : PolicyInput)
    (t : CoverageType)
    (hvalid : PolicyAnalyzer.structurallyValid p = true)
    (hzero : p.coverage_items = [])
    (hcrit : propertyCritical catalog p t) :
    Orchestrator.analyze_policy catalog p = .ok (happyResult catalog p)
    ∧ ∃ g ∈ (happyResult catalog p).coverage_gaps,
        g.gap_type = t ∧ g.severity = RiskSeverity.High := by
  refine ⟨analyze_policy_eq_of_valid catalog p hvalid, ?_⟩
  obtain ⟨r, hr, hrt, hrsev, happ⟩ := hcrit
  have hlim : (PolicyAnalyzer.profileOf p).limitFor r.coverage_type = none :=
    limitFor_of_zero_items p hzero _
  have hmatch : BestPracticeChecker.ruleMatches r p (PolicyAnalyzer.profileOf p)
      (riskProfileOf p) = true := by
    unfold BestPracticeChecker.ruleMatches
    rw [hlim, happ]
    rfl
  have hcand : BestPracticeChecker.mkCandidate r p (PolicyAnalyzer.profileOf p)
      (riskProfileOf p) ∈ candidatesOf catalog p :=
    List.mem_filterMap.mpr ⟨r, hr, by rw [if_pos hmatch]⟩
  have hctype : (BestPracticeChecker.mkCandidate r p (PolicyAnalyzer.profileOf p)
      (riskProfileOf p)).gap_type = t := hrt
  have ht : t ∈ (candidatesOf catalog p).map (fun c => c.gap_type) :=
    List.mem_map.mpr ⟨_, hcand, hctype⟩
  have hmemgroup : BestPracticeChecker.mkCandidate r p (PolicyAnalyzer.profileOf p)
      (riskProfileOf p) ∈ (candidatesOf catalog p).filter (fun c => decide (c.gap_type = t)) :=
    List.mem_filter.mpr ⟨hcand, by simp [hctype]⟩
  have hne : (candidatesOf catalog p).filter (fun c => decide (c.gap_type = t)) ≠ [] := by
    intro h0
    rw [h0] at hmemgroup
    cases hmemgroup
  have hsevmem : RiskSeverity.High ∈
      ((candidatesOf catalog p).filter (fun c => decide (c.gap_type = t))).map
        (fun c => c.severity) :=
    List.mem_map.mpr ⟨_, hmemgroup, hrsev⟩
  have hmax : GapReasoner.maxSevList
      (((candidatesOf catalog p).filter (fun c => decide (c.gap_type = t))).map
        (fun c => c.severity)) = .High :=
    maxSevList_eq_high _ hsevmem
  refine ⟨GapReasoner.finalize
      (GapReasoner.mergeGroup t
        ((candidatesOf catalog p).filter (fun c => decide (c.gap_type = t)))),
    mem_synthesize_of_type (candidatesOf catalog p) t ht, ?_, ?_⟩
  · rw [finalize_gap_type, mergeGroup_gap_type]
  · rw [finalize_severity, mergeGroup_severity _ _ hne, hmax]
    split <;> rfl

/-- Witness for C8: the bare coastal policy with zero coverage items yields a
High-severity flood gap against the sample catalog. -/
theorem zero_items_high_gaps_witness :
    Orchestrator.analyze_policy sampleCatalog bareSamplePolicy
        = .ok (happyResult sampleCatalog bareSamplePolicy)
    ∧ ∃ g ∈ (happyResult sampleCatalog bareSamplePolicy).coverage_gaps,
        g.gap_type = CoverageType.flood ∧ g.severity = RiskSeverity.High :=
  zero_items_high_gaps sampleCatalog bareSamplePolicy .flood (by decide) rfl
    ⟨floodRule, by simp [sampleCatalog], rfl, rfl, rfl⟩

/-- Catalog rules that target a given gap type. -/
def rulesTargeting (catalog : List BestPracticeRule) (t : CoverageType) :
    List BestPracticeRule :=
  catalog.filter (fun r => decide (r.coverage_type = t))

/-- Triggering risk factors that a rule contributes to its candidate for a
policy. -/
def ruleTriggers (r : BestPracticeRule) (p : PolicyInput) : List String :=
  ((riskProfileOf p).map (fun f => f.name)).filter (fun n => decide (n ∈ r.relevant_factors))

theorem mkCandidate_gap_type (r : BestPracticeRule) (p : PolicyInput)
    (profile : CoverageProfile) (risk : List RiskFactor) :
    (BestPracticeChecker.mkCandidate r p profile risk).gap_type = r.coverage_type := rfl

theorem mkCandidate_risk_factors (r : BestPracticeRule) (p : PolicyInput) :
    (BestPracticeChecker.mkCandidate r p (PolicyAnalyzer.profileOf p)
      (riskProfileOf p)).risk_factors = ruleTriggers r p := rfl

theorem check_filter_eq (p : PolicyInput) (t : CoverageType) :
    ∀ catalog : List BestPracticeRule,
      (∀ r ∈ rulesTargeting catalog t,
        BestPracticeChecker.ruleMatches r p (PolicyAnalyzer.profileOf p)
          (riskProfileOf p) = true) →
      (candidatesOf catalog p).filter (fun c => decide (c.gap_type = t))
        = (rulesTargeting catalog t).map
            (fun r => BestPracticeChecker.mkCandidate r p (PolicyAnalyzer.profileOf p)
              (riskProfileOf p)) := by
  intro catalog
  induction catalog with
  | nil => intro _; rfl
  | cons r rest ih =>
    intro hall
    have hall' : ∀ x ∈ rulesTargeting rest t,
        BestPracticeChecker.ruleMatches x p (PolicyAnalyzer.profileOf p)
          (riskProfileOf p) = true := by
      intro x hx
      apply hall
      unfold rulesTargeting at hx ⊢
      rw [List.filter_cons]
      split
      · exact List.mem_cons_of_mem _ hx
      · exact hx
    have hrest := ih hall'
    by_cases hrt : r.coverage_type = t
    · have hm : BestPracticeChecker.ruleMatches r p (PolicyAnalyzer.profileOf p)
          (riskProfileOf p) = true := by
        apply hall
        unfold rulesTargeting
        rw [List.filter_cons, if_pos (by simp [hrt])]
        exact List.mem_cons_self _ _
      unfold candidatesOf BestPracticeChecker.check rulesTargeting at hrest ⊢
      rw [List.filterMap_cons, if_pos hm, List.filter_cons, List.filter_cons]
      rw [if_pos (by simp [mkCandidate_gap_type, hrt]), if_pos (by simp [hrt])]
      rw [List.map_cons]
      exact congrArg _ hrest
    · unfold candidatesOf BestPracticeChecker.check rulesTargeting at hrest ⊢
      rw [List.filterMap_cons]
      by_cases hm : BestPracticeChecker.ruleMatches r p (PolicyAnalyzer.profileOf p)
          (riskProfileOf p) = true
      · rw [if_pos hm, List.filter_cons, List.filter_cons]
        rw [if_neg (by simp [mkCandidate_gap_type, hrt]), if_neg (by simp [hrt])]
        exact hrest
      · rw [if_neg hm, List.filter_cons, if_neg (by simp [hrt])]
        exact hrest

theorem countP_eq_one_of_nodup_mem (l : List CoverageType) (t : CoverageType)
    (hn : l.Nodup) (ht : t ∈ l) :
    l.countP (fun x => decide (x = t)) = 1 := by
  induction l with
  | nil => cases ht
  | cons a as ih =>
    rw [List.countP_cons]
    rcases List.mem_cons.mp ht with rfl | hmem
    · have hz : as.countP (fun x => decide (x = t)) = 0 := by
        rw [List.countP_eq_zero]
        intro x hx hxa
        exact (List.nodup_cons.mp hn).1 ((of_decide_eq_true hxa) ▸ hx)
      simp [hz]
    · have hne : ¬ a = t := fun h => (List.nodup_cons.mp hn).1 (h ▸ hmem)
      have hrec := ih (List.nodup_cons.mp hn).2 hmem
      simp [hrec, hne]

theorem foldl_pick_spec (cs : List CandidateGap) :
    ∀ acc : CandidateGap,
      (cs.foldl (fun best d =>
          if best.rationale.length < d.rationale.length then d else best) acc ∈ acc :: cs)
      ∧ acc.rationale.length ≤
          (cs.foldl (fun best d =>
            if best.rationale.length < d.rationale.length then d else best) acc).rationale.length
      ∧ ∀ d ∈ cs, d.rationale.length ≤
          (cs.foldl (fun best d =>
            if best.rationale.length < d.rationale.length then d else best) acc).rationale.length := by
  induction cs with
  | nil =>
    intro acc
    exact ⟨List.mem_singleton.mpr rfl, le_refl _, fun d hd => absurd hd (List.not_mem_nil d)⟩
  | cons d ds ih =>
    intro acc
    have step : (d :: ds).foldl (fun best e =>
        if best.rationale.length < e.rationale.length then e else best) acc
      = ds.foldl (fun best e =>
          if best.rationale.length < e.rationale.length then e else best)
        (if acc.rationale.length < d.rationale.length then d else acc) := rfl
    have h := ih (if acc.rationale.length < d.rationale.length then d else acc)
    rw [step]
    refine ⟨?_, ?_, ?_⟩
    · rcases List.mem_cons.mp h.1 with he | hmem
      · rw [he]
        by_cases hc : acc.rationale.length < d.rationale.length
        · rw [if_pos hc]; exact List.mem_cons_of_mem _ (List.mem_cons_self _ _)
        · rw [if_neg hc]; exact List.mem_cons_self _ _
      · exact List.mem_cons_of_mem _ (List.mem_cons_of_mem _ hmem)
    · refine le_trans ?_ h.2.1
      by_cases hc : acc.rationale.length < d.rationale.length
      · rw [if_pos hc]; exact le_of_lt hc
      · rw [if_neg hc]
    · intro e he
      rcases List.mem_cons.mp he with rfl | hmem
      · refine le_trans ?_ h.2.1
        by_cases hc : acc.rationale.length < e.rationale.length
        · rw [if_pos hc]
        · rw [if_neg hc]; omega
      · exact h.2.2 e hmem

theorem pickMostSpecific_spec (group : List CandidateGap) (c : CandidateGap)
    (h : GapReasoner.pickMostSpecific group = some c) :
    c ∈ group ∧ ∀ d ∈ group, d.rationale.length ≤ c.rationale.length := by
  cases group with
  | nil => cases h
  | cons c0 cs =>
    have hc : c = cs.foldl (fun best d =>
        if best.rationale.length < d.rationale.length then d else best) c0 :=
      (Option.some.inj h).symm
    have h0 := foldl_pick_spec cs c0
    subst hc
    refine ⟨h0.1, ?_⟩
    intro d hd
    rcases List.mem_cons.mp hd with rfl | hmem
    · exact h0.2.1
    · exact h0.2.2 d hmem

theorem pickMostSpecific_exists (group : List CandidateGap) (h : group ≠ []) :
    ∃ c, GapReasoner.pickMostSpecific group = some c := by
  cases group with
  | nil => exact absurd rfl h
  | cons c0 cs => exact ⟨_, rfl⟩

theorem mergeGroup_rationale_fields (t : CoverageType) (group : List CandidateGap)
    (c : CandidateGap) (h : GapReasoner.pickMostSpecific group = some c) :
    (GapReasoner.mergeGroup t group).rationale = c.rationale
    ∧ (GapReasoner.mergeGroup t group).shortfall = c.shortfall := by
  unfold GapReasoner.mergeGroup
  rw [h]
  exact ⟨rfl, rfl⟩

theorem finalize_title (m : GapReasoner.MergedFinding) :
    (GapReasoner.finalize m).title = m.rationale := rfl

theorem finalize_explanation (m : GapReasoner.MergedFinding) :
    (GapReasoner.finalize m).explanation
      = "This gap was identified because: " ++ m.rationale := rfl

theorem countP_synthesize (cs : List CandidateGap) (t : CoverageType) :
    (GapReasoner.synthesize cs).countP (fun g => decide (g.gap_type = t))
      = ((cs.map (fun c => c.gap_type)).dedup).countP (fun x => decide (x = t)) := by
  unfold GapReasoner.synthesize
  rw [(List.perm_insertionSort GapReasoner.gapOrder _).countP_eq]
  rw [List.countP_map]
  unfold GapReasoner.mergedOf
  rw [List.countP_map]
  apply List.countP_congr
  intro x _
  simp [Function.comp, finalize_gap_type, mergeGroup_gap_type]

theorem mem_synthesize_inv (cs : List CandidateGap) (g : CoverageGap)
    (hg : g ∈ GapReasoner.synthesize cs) :
    ∃ t' ∈ (cs.map (fun c => c.gap_type)).dedup,
      g = GapReasoner.finalize (GapReasoner.mergeGroup t'
        (cs.filter (fun c => decide (c.gap_type = t')))) := by
  unfold GapReasoner.synthesize at hg
  rw [List.mem_insertionSort] at hg
  rcases List.mem_map.mp hg with ⟨m, hm, rfl⟩
  unfold GapReasoner.mergedOf at hm
  rcases List.mem_map.mp hm with ⟨t', ht', rfl⟩
  exact ⟨t', ht', rfl⟩

/-- Spec-side description of the unique merged gap for a gap type targeted by
two or more matching rules: one gap in the result, risk factors the union of
the matching rules' triggers, severity the highest among the merged
candidates escalated one level (capped at High) when two or more risk factors
corroborate the finding, and title/explanation from the most specific
(longest) rationale. -/
def MergedGapSpec (catalog : List BestPracticeRule) (p : PolicyInput)
    (res : AnalysisResult) (t : CoverageType) : Prop :=
  res.coverage_gaps.countP (fun g => decide (g.gap_type = t)) = 1
  ∧ ∀ g ∈ res.coverage_gaps, g.gap_type = t →
      ((∀ f, f ∈ g.risk_factors ↔
          ∃ r ∈ rulesTargeting catalog t, f ∈ ruleTriggers r p)
       ∧ g.severity =
          (if 2 ≤ g.risk_factors.length
           then GapReasoner.escalate (GapReasoner.maxSevList
              (((candidatesOf catalog p).filter (fun c => decide (c.gap_type = t))).map
                (fun c => c.severity)))
           else GapReasoner.maxSevList
              (((candidatesOf catalog p).filter (fun c => decide (c.gap_type = t))).map
                (fun c => c.severity)))
       ∧ ∃ c ∈ (candidatesOf catalog p).filter (fun c => decide (c.gap_type = t)),
           g.title = c.rationale
           ∧ g.explanation = "This gap was identified because: " ++ c.rationale
           ∧ ∀ d ∈ (candidatesOf catalog p).filter (fun c => decide (c.gap_type = t)),
               d.rationale.length ≤ c.rationale.length)

/-- C3 (amended): when two or more catalog rules target the same gap type and
all of them match, the result contains exactly one CoverageGap for that type,
with risk_factors the union of the matching rules' triggering risk factors,
severity the highest among the merged candidates escalated one level (capped
at High) when two or more risk factors corroborate the merged finding, and
title/explanation from the most specific (longest) rationale. -/
theorem merged_gap_spec (catalog : List BestPracticeRule) (p : PolicyInput)
    (res : AnalysisResult) (t : CoverageType)
    (h : Orchestrator.analyze_policy catalog p = .ok res)
    (h2 : 2 ≤ (rulesTargeting catalog t).length)
    (hall : ∀ r ∈ rulesTargeting catalog t,
      BestPracticeChecker.ruleMatches r p (PolicyAnalyzer.profileOf p)
        (riskProfileOf p) = true) :
    MergedGapSpec catalog p res t := by
  obtain ⟨hv, rfl⟩ := analyze_policy_ok_inv catalog p res h
  have hgroup := check_filter_eq p t catalog hall
  have hrne : rulesTargeting catalog t ≠ [] := by
    intro h0
    rw [h0] at h2
    simp at h2
  obtain ⟨r0, hr0⟩ : ∃ r, r ∈ rulesTargeting catalog t := by
    cases hrul : rulesTargeting catalog t with
    | nil => exact absurd hrul hrne
    | cons a l => exact ⟨a, hrul ▸ List.mem_cons_self a l⟩
  have hr0t : r0.coverage_type = t := of_decide_eq_true (List.mem_filter.mp hr0).2
  have hc0 : BestPracticeChecker.mkCandidate r0 p (PolicyAnalyzer.profileOf p)
      (riskProfileOf p) ∈
      (candidatesOf catalog p).filter (fun c => decide (c.gap_type = t)) := by
    rw [hgroup]
    exact List.mem_map.mpr ⟨r0, hr0, rfl⟩
  have hcs : BestPracticeChecker.mkCandidate r0 p (PolicyAnalyzer.profileOf p)
      (riskProfileOf p) ∈ candidatesOf catalog p := (List.mem_filter.mp hc0).1
  have htm : t ∈ (candidatesOf catalog p).map (fun c => c.gap_type) :=
    List.mem_map.mpr ⟨_, hcs, by rw [mkCandidate_gap_type, hr0t]⟩
  have hne : (candidatesOf catalog p).filter (fun c => decide (c.gap_type = t)) ≠ [] := by
    intro h0
    rw [h0] at hc0
    cases hc0
  constructor
  · show (GapReasoner.synthesize (candidatesOf catalog p)).countP _ = 1
    rw [countP_synthesize]
    exact countP_eq_one_of_nodup_mem _ t (List.nodup_dedup _) (List.mem_dedup.mpr htm)
  · intro g hg hgt
    obtain ⟨t', ht', rfl⟩ :=
      mem_synthesize_inv (candidatesOf catalog p) g
        (hg : g ∈ GapReasoner.synthesize (candidatesOf catalog p))
    have htt : t' = t := by
      rw [finalize_gap_type, mergeGroup_gap_type] at hgt
      exact hgt
    subst htt
    have hrf : (GapReasoner.finalize (GapReasoner.mergeGroup t'
        ((candidatesOf catalog p).filter (fun c => decide (c.gap_type = t'))))).risk_factors
        = ((((candidatesOf catalog p).filter (fun c => decide (c.gap_type = t'))).map
            (fun c => c.risk_factors)).flatten).dedup := by
      rw [finalize_risk_factors, mergeGroup_risk_factors _ _ hne]
    refine ⟨?_, ?_, ?_⟩
    · intro f
      rw [hrf, List.mem_dedup, List.mem_flatten]
      constructor
      · rintro ⟨l, hl, hf⟩
        rcases List.mem_map.mp hl with ⟨c, hc, rfl⟩
        rw [hgroup] at hc
        rcases List.mem_map.mp hc with ⟨r, hr, rfl⟩
        rw [mkCandidate_risk_factors] at hf
        exact ⟨r, hr, hf⟩
      · rintro ⟨r, hr, hf⟩
        refine ⟨(BestPracticeChecker.mkCandidate r p (PolicyAnalyzer.profileOf p)
            (riskProfileOf p)).risk_factors, ?_, ?_⟩
        · refine List.mem_map.mpr ⟨_, ?_, rfl⟩
          rw [hgroup]
          exact List.mem_map.mpr ⟨r, hr, rfl⟩
        · rw [mkCandidate_risk_factors]
          exact hf
    · rw [finalize_severity, mergeGroup_severity _ _ hne, finalize_risk_factors,
        mergeGroup_risk_factors _ _ hne]
    · obtain ⟨c, hcp⟩ := pickMostSpecific_exists _ hne
      have hspec := pickMostSpecific_spec _ c hcp
      have hrat := (mergeGroup_rationale_fields t' _ c hcp).1
      refine ⟨c, hspec.1, ?_, ?_, hspec.2⟩
      · rw [finalize_title, hrat]
      · rw [finalize_explanation, hrat]

/-- Witness for the amended C3 at a concrete duplicated-rule catalog. -/
theorem merged_gap_spec_witness :
    MergedGapSpec dupFloodCatalog bareSamplePolicy
      (resOf dupFloodCatalog bareSamplePolicy) CoverageType.flood :=
  merged_gap_spec dupFloodCatalog bareSamplePolicy
    (resOf dupFloodCatalog bareSamplePolicy) .flood rfl (by decide) (by decide)

/-- C3 counterexample: on a catalog whose two flood rules both match with
severity Low and distinct triggering factors, the returned flood gap has
severity Medium, not the highest severity (Low) among the merged candidates:
the claim omits the escalation applied after the merge. -/
theorem merged_severity_counterexample :
    ((resOf dupFloodCatalog bareSamplePolicy).coverage_gaps.map
        (fun g => (g.gap_type, g.severity)))
      = [(CoverageType.flood, RiskSeverity.Medium)]
    ∧ (((candidatesOf dupFloodCatalog bareSamplePolicy).filter
          (fun c => decide (c.gap_type = CoverageType.flood))).map
        (fun c => c.severity)) = [RiskSeverity.Low, RiskSeverity.Low]
    ∧ GapReasoner.maxSevList [RiskSeverity.Low, RiskSeverity.Low] = RiskSeverity.Low
    ∧ RiskSeverity.Medium ≠ RiskSeverity.Low :=
  ⟨by decide, by decide, by decide, by decide⟩
